import Mathlib

/-!
Verification of the screenshot-extraction pipeline (`extract_screenshot.py`).

The script reads a serial-monitor log, locates the hex payload between two
sentinel strings, extracts optional `FORMAT:`/`WIDTH:`/`HEIGHT:` metadata
tokens, keeps the lines made only of hex digits, decodes them to bytes,
writes a raw file, and converts big-endian RGB565 samples to RGB888 pixels,
falling back to a printed ImageMagick recipe when PIL is unavailable.

Text is modelled as `List Char`, bytes as `Nat` (each < 256 in practice),
file writes and printed messages as explicit result fields.
-/

set_option maxRecDepth 100000

namespace Screenshot

/-- Value of a hexadecimal digit, as accepted by Python `bytes.fromhex`
(alphabet `0-9a-fA-F`). -/
def hexVal (c : Char) : Option Nat :=
  if '0' ≤ c ∧ c ≤ '9' then some (c.toNat - 48)
  else if 'a' ≤ c ∧ c ≤ 'f' then some (c.toNat - 87)
  else if 'A' ≤ c ∧ c ≤ 'F' then some (c.toNat - 55)
  else none

/-- A character of the hex alphabet `0-9a-fA-F`. -/
def isHexChar (c : Char) : Bool := (hexVal c).isSome

/-- ASCII whitespace skipped between bytes by Python `bytes.fromhex`. -/
def isPyWs (c : Char) : Bool :=
  c == ' ' || c == '\t' || c == '\n' || c == '\r' || c == '\x0B' || c == '\x0C'

/-- Python `bytes.fromhex`: pairs of hex digits decode to bytes left to
right; ASCII whitespace is skipped between bytes; any other non-hex
character, a hex digit in an odd position at the end of the string, or
whitespace splitting a pair makes the call raise `ValueError` (modelled as
`none`).  Mirrors `bytes.fromhex(hex_data)` at line 74 of the source. -/
def fromhex : List Char → Option (List Nat)
  | [] => some []
  | c :: t =>
    if isPyWs c then fromhex t
    else
      match hexVal c with
      | none => none
      | some hi =>
        match t with
        | [] => none
        | d :: t' =>
          match hexVal d with
          | none => none
          | some lo =>
            match fromhex t' with
            | none => none
            | some rest => some ((16 * hi + lo) :: rest)

/-- Split a text at newline characters.  The regex
`^[0-9a-fA-F]+$` with `re.MULTILINE` (source line 58) anchors `^` after
each `\n` and `$` before each `\n`, so its matches are exactly the
`\n`-delimited lines retained by `isHexLine` below. -/
def splitLines : List Char → List (List Char)
  | [] => [[]]
  | c :: t =>
    if c = '\n' then [] :: splitLines t
    else
      match splitLines t with
      | [] => [[c]]
      | l :: ls => (c :: l) :: ls

/-- A line matched by `^[0-9a-fA-F]+$`: non-empty and made only of hex
digits. -/
def isHexLine (l : List Char) : Bool := !l.isEmpty && l.all isHexChar

/-- `hex_pattern.findall(screenshot_section)` (source line 59): the hex-only
lines of the span, in order. -/
def hexLinesOf (span : List Char) : List (List Char) :=
  (splitLines span).filter isHexLine

/-- Python `str.find`: index of the first occurrence of `needle`, `none`
standing for the sentinel `-1`. -/
def strFind (needle : List Char) : List Char → Option Nat
  | [] => if needle.isPrefixOf ([] : List Char) then some 0 else none
  | c :: t =>
    if needle.isPrefixOf (c :: t) then some 0
    else (strFind needle t).map (· + 1)

/-- Python slice `s[i:j]` for non-negative indices. -/
def pySlice (s : List Char) (i j : Nat) : List Char := (s.take j).drop i

/-- Start sentinel (source line 27). -/
def startMarker : List Char := "========== SCREENSHOT START ==========".data

/-- End sentinel (source line 28). -/
def endMarker : List Char := "========== SCREENSHOT END ==========".data

/-- The `screenshot_section` slice `content[start_idx:end_idx]`
(source line 38), available only when both markers are found. -/
def locateSpan (content : List Char) : Option (List Char) :=
  match strFind startMarker content, strFind endMarker content with
  | some si, some ei => some (pySlice content si ei)
  | _, _ => none

/-- Base-10 value of a digit string, as `int()` on the group matched by
`(\d+)`. -/
def digitsToNat (ds : List Char) : Nat :=
  ds.foldl (fun acc c => 10 * acc + (c.toNat - 48)) 0

/-- Attempt to match `KEY(\d+)` at the head of `s`: the key literal
followed by at least one digit, the digit run taken greedily. -/
def matchKeyNum (key s : List Char) : Option Nat :=
  if key.isPrefixOf s then
    let ds := (s.drop key.length).takeWhile Char.isDigit
    if ds.isEmpty then none else some (digitsToNat ds)
  else none

/-- `re.search(KEY + r'(\d+)', s)`: leftmost position where the key literal
is followed by at least one digit; parsed value of the greedy digit run
there. -/
def searchKeyNum (key : List Char) : List Char → Option Nat
  | [] => matchKeyNum key []
  | c :: t =>
    match matchKeyNum key (c :: t) with
    | some v => some v
    | none => searchKeyNum key t

/-- A word character as matched by `\w` (ASCII model: letters, digits,
underscore). -/
def isWordChar (c : Char) : Bool := c.isAlphanum || c == '_'

/-- Attempt to match `KEY(\w+)` at the head of `s`. -/
def matchKeyWord (key s : List Char) : Option (List Char) :=
  if key.isPrefixOf s then
    let ws := (s.drop key.length).takeWhile isWordChar
    if ws.isEmpty then none else some ws
  else none

/-- `re.search(KEY + r'(\w+)', s)`: leftmost match of the key literal
followed by at least one word character. -/
def searchKeyWord (key : List Char) : List Char → Option (List Char)
  | [] => matchKeyWord key []
  | c :: t =>
    match matchKeyWord key (c :: t) with
    | some v => some v
    | none => searchKeyWord key t

/-- Key literal of the width token (source line 44). -/
def widthKey : List Char := "WIDTH:".data

/-- Key literal of the height token (source line 45). -/
def heightKey : List Char := "HEIGHT:".data

/-- Key literal of the format token (source line 43). -/
def formatKey : List Char := "FORMAT:".data

/-- Metadata extracted from the screenshot section: format name when the
token is present, width and height with the defaults of source lines
41-42. -/
structure FrameMetadata where
  format : Option (List Char)
  width : Nat
  height : Nat
deriving DecidableEq

/-- The metadata scan of source lines 40-55: three independent regex
searches, defaults `width = 240`, `height = 320`. -/
def extractMeta (span : List Char) : FrameMetadata :=
  { format := searchKeyWord formatKey span
  , width := (searchKeyNum widthKey span).getD 240
  , height := (searchKeyNum heightKey span).getD 320 }

/-- The fatal failure modes of `extract_screenshot` (source lines 33-36,
61-63, 73-77). -/
inductive ExtractError
  | missingMarker
  | noPayload
  | invalidHex
deriving DecidableEq

/-- Successful result of `extract_screenshot`: the decoded bytes (also the
content of the raw file written at line 85-86) plus the metadata carried to
`convert_to_png`. -/
structure ExtractOk where
  rawData : List Nat
  width : Nat
  height : Nat
  format : Option (List Char)
deriving DecidableEq

instance {ε α : Type} [DecidableEq ε] [DecidableEq α] : DecidableEq (Except ε α)
  | Except.ok a, Except.ok b =>
    if h : a = b then isTrue (by rw [h])
    else isFalse (fun hh => h (Except.ok.inj hh))
  | Except.ok _, Except.error _ => isFalse Except.noConfusion
  | Except.error _, Except.ok _ => isFalse Except.noConfusion
  | Except.error e, Except.error f =>
    if h : e = f then isTrue (by rw [h])
    else isFalse (fun hh => h (Except.error.inj hh))

/-- `extract_screenshot` (source lines 19-89).  The first component is the
list of file writes performed (the raw file's bytes, written only after the
hex decode succeeds); the second is the returned value or the error on
which the function returns `None`. -/
def extract_screenshot (content : List Char) :
    List (List Nat) × Except ExtractError ExtractOk :=
  match strFind startMarker content, strFind endMarker content with
  | some si, some ei =>
    let sec := pySlice content si ei
    let meta := extractMeta sec
    let hls := hexLinesOf sec
    if hls.isEmpty then ([], Except.error ExtractError.noPayload)
    else
      match fromhex hls.flatten with
      | none => ([], Except.error ExtractError.invalidHex)
      | some raw => ([raw], Except.ok ⟨raw, meta.width, meta.height, meta.format⟩)
  | _, _ => ([], Except.error ExtractError.missingMarker)

/-- RGB565 sample to RGB888 pixel (source lines 112-119): channel split and
bit-replication expansion. -/
def pixelOfVal (val : Nat) : Nat × Nat × Nat :=
  let r5 := (val >>> 11) &&& 0x1F
  let g6 := (val >>> 5) &&& 0x3F
  let b5 := val &&& 0x1F
  ((r5 <<< 3) ||| (r5 >>> 2), (g6 <<< 2) ||| (g6 >>> 4), (b5 <<< 3) ||| (b5 >>> 2))

/-- The conversion loop of source lines 106-121: `range(0, len(data), 2)`
with `struct.unpack('>H', data[i:i+2])`.  On a final 1-byte slice
`struct.unpack` raises `struct.error`, modelled as `Except.error ()`. -/
def convertPixels : List Nat → Except Unit (List (Nat × Nat × Nat))
  | [] => Except.ok []
  | [_] => Except.error ()
  | hi :: lo :: rest =>
    match convertPixels rest with
    | Except.ok ps => Except.ok (pixelOfVal (256 * hi + lo) :: ps)
    | Except.error e => Except.error e

/-- The big-endian 16-bit samples of a byte sequence, complete pairs only:
`struct.unpack('>H', data[i:i+2])` gives `data[i] * 256 + data[i+1]`. -/
def toPairs : List Nat → List Nat
  | hi :: lo :: rest => (256 * hi + lo) :: toPairs rest
  | _ => []

/-- The manual recipe printed when PIL is missing (source line 134). -/
def pilMissingMsg (w h : Nat) (rawFile pngFile : String) : String :=
  "  convert -depth 5 -size " ++ toString w ++ "x" ++ toString h ++
    " RGB565:" ++ rawFile ++ " " ++ pngFile

/-- The manual recipe printed by `main` on the fallback path
(source line 174). -/
def mainFallbackRecipe (w h : Nat) (rawFile timestamp : String) : String :=
  "  convert -depth 16 -size " ++ toString w ++ "x" ++ toString h ++
    " -endian LSB rgb:" ++ rawFile ++ " screenshot_" ++ timestamp ++ ".png"

/-- `convert_to_png` (source lines 91-138).  `pil` says whether importing
PIL succeeds, `encodeOk` whether the `Image` construction and save
succeed; every exception path is caught and returns `none` together with
the diagnostic messages printed.  `some pngFile` is the successful
return. -/
def convert_to_png (pil encodeOk : Bool) (data : List Nat) (w h : Nat)
    (rawFile pngFile : String) : List String × Option String :=
  if pil then
    match convertPixels data with
    | Except.ok _ =>
      if encodeOk then ([], some pngFile)
      else (["Error converting to PNG"], none)
    | Except.error _ => (["Error converting to PNG"], none)
  else
    (["Error: PIL/Pillow not found",
      "Install with: pip install pillow",
      "Or use ImageMagick manually:",
      pilMissingMsg w h rawFile pngFile], none)

/-- Observable outcome of one `main` invocation (source lines 140-174):
exit status, whether the raw file was written, whether it was deleted
afterwards, whether a PNG was written, and the messages printed on the
conversion/fallback paths. -/
structure MainOutcome where
  exitCode : Nat
  rawWritten : Bool
  rawDeleted : Bool
  pngWritten : Bool
  printed : List String
deriving DecidableEq

/-- `main` (source lines 140-174) after argument checks: run
`extract_screenshot`, exit 1 on its failure; otherwise run
`convert_to_png` and either delete the raw file on success or keep it and
print the fallback recipe. -/
def main (content : List Char) (pil encodeOk : Bool) (timestamp : String) :
    MainOutcome :=
  match extract_screenshot content with
  | (_, Except.error _) => ⟨1, false, false, false, []⟩
  | (_, Except.ok r) =>
    let rawFile := "screenshot_" ++ timestamp ++ ".raw"
    let pngFile := "screenshot_" ++ timestamp ++ ".png"
    match convert_to_png pil encodeOk r.rawData r.width r.height rawFile pngFile with
    | (msgs, some _) => ⟨0, true, true, true, msgs⟩
    | (msgs, none) =>
      ⟨0, true, false, false,
        msgs ++ ["\n✓ Raw data saved as: " ++ rawFile,
                 "  You can manually convert with:",
                 mainFallbackRecipe r.width r.height rawFile timestamp]⟩

/-- Payload locator as the specification words it (§4.1): the substring
strictly between the end of the first occurrence of the start sentinel and
the start of the first occurrence of the end sentinel, the end sentinel
searched only within the text following the start sentinel; `none` when
either search fails.  Stated for comparison with `locateSpan`. -/
def specLocateSpan (content : List Char) : Option (List Char) :=
  match strFind startMarker content with
  | none => none
  | some si =>
    let afterStart := content.drop (si + startMarker.length)
    match strFind endMarker afterStart with
    | none => none
    | some k => some (afterStart.take k)

/-- Trailing carriage-return/line-feed trimming, as the hex-collector claim
words the retention condition. -/
def rtrimCRLF (l : List Char) : List Char :=
  (l.reverse.dropWhile (fun c => c == '\r' || c == '\n')).reverse

/-- Universal-newlines translation performed by `open(log_file, 'r')`
(source line 23): `\r\n` and lone `\r` both become `\n`, so the text
handed to the pipeline never contains a carriage return. -/
def univNewlines : List Char → List Char
  | [] => []
  | c :: t =>
    if c = '\r' then
      match t with
      | [] => ['\n']
      | d :: t' => if d = '\n' then '\n' :: univNewlines t' else '\n' :: univNewlines (d :: t')
    else c :: univNewlines t

/-- Whether `needle` occurs as a contiguous substring of `hay`. -/
def containsSub (needle hay : List Char) : Bool := (strFind needle hay).isSome

/-! ## Helper lemmas -/

/-- Induction on a list two elements at a time. -/
theorem pair_induction (P : List Nat → Prop) (h0 : P []) (h1 : ∀ a, P [a])
    (h2 : ∀ a b t, P t → P (a :: b :: t)) : ∀ l, P l
  | [] => h0
  | [a] => h1 a
  | a :: b :: t => h2 a b t (pair_induction P h0 h1 h2 t)

theorem convertPixels_even : ∀ (data : List Nat), data.length % 2 = 0 →
    convertPixels data = Except.ok ((toPairs data).map pixelOfVal) := by
  intro data
  induction data using pair_induction with
  | h0 => intro _; rfl
  | h1 a => intro h; simp at h
  | h2 a b t ih =>
    intro h
    have ht : t.length % 2 = 0 := by simp [List.length_cons] at h; omega
    simp [convertPixels, toPairs, ih ht]

theorem convertPixels_odd : ∀ (data : List Nat), data.length % 2 = 1 →
    convertPixels data = Except.error () := by
  intro data
  induction data using pair_induction with
  | h0 => intro h; simp at h
  | h1 a => intro _; rfl
  | h2 a b t ih =>
    intro h
    have ht : t.length % 2 = 1 := by simp [List.length_cons] at h; omega
    simp [convertPixels, ih ht]

theorem toPairs_length : ∀ (data : List Nat),
    (toPairs data).length = data.length / 2 := by
  intro data
  induction data using pair_induction with
  | h0 => rfl
  | h1 a => simp [toPairs]
  | h2 a b t ih => simp [toPairs, List.length_cons, ih]; omega

theorem toPairs_getD : ∀ (data : List Nat) (i : Nat), i < data.length / 2 →
    (toPairs data).getD i 0 =
      256 * data.getD (2 * i) 0 + data.getD (2 * i + 1) 0 := by
  intro data
  induction data using pair_induction with
  | h0 => intro i h; simp at h
  | h1 a => intro i h; simp only [List.length_singleton] at h; omega
  | h2 a b t ih =>
    intro i h
    match i with
    | 0 => simp [toPairs]
    | j + 1 =>
      have hj : j < t.length / 2 := by
        simp only [List.length_cons] at h; omega
      have e1 : 2 * (j + 1) = 2 * j + 1 + 1 := by omega
      rw [e1]
      simpa [toPairs] using ih j hj

theorem ws_not_hex (c : Char) (h : isPyWs c = true) : hexVal c = none := by
  simp only [isPyWs, Bool.or_eq_true, beq_iff_eq] at h
  rcases h with ((((h | h) | h) | h) | h) | h <;> subst h <;> decide

theorem fromhex_len : ∀ (cs : List Char) (bs : List Nat), fromhex cs = some bs →
    2 * bs.length = (cs.filter (fun c => (hexVal c).isSome)).length := by
  intro cs
  induction cs using fromhex.induct with
  | case1 =>
    intro bs h
    rw [show fromhex ([] : List Char) = some [] from rfl] at h
    cases h
    rfl
  | case2 d t' hws ih =>
    intro bs h
    rw [fromhex, if_pos hws] at h
    simpa [List.filter_cons, ws_not_hex d hws] using ih bs h
  | case3 d t' hws hnone =>
    intro bs h
    simp [fromhex, hws, hnone] at h
  | case4 d hws lo hlo =>
    intro bs h
    simp [fromhex, hws, hlo] at h
  | case5 d hws lo hlo d1 t' hd1 =>
    intro bs h
    simp [fromhex, hws, hlo, hd1] at h
  | case6 d hws lo hlo d1 t' lo' hlo' hrest ih =>
    intro bs h
    simp [fromhex, hws, hlo, hlo', hrest] at h
  | case7 d hws lo hlo d1 t' lo' hlo' rest hrest ih =>
    intro bs h
    simp only [fromhex, hws, if_neg, hlo, hlo', hrest] at h
    rw [if_neg (by simp [hws])] at h
    simp only [Option.some.injEq] at h
    subst h
    have hrec := ih rest hrest
    simp [List.filter_cons, hlo, hlo', List.length_cons]
    omega

theorem splitLines_chars : ∀ (s : List Char), ∀ l ∈ splitLines s, ∀ c ∈ l,
    c ∈ s ∧ c ≠ '\n' := by
  intro s
  induction s with
  | nil =>
    intro l hl c hc
    simp [splitLines] at hl
    subst hl
    simp at hc
  | cons a t ih =>
    intro l hl c hc
    by_cases ha : a = '\n'
    · subst ha
      simp only [splitLines, if_pos rfl] at hl
      rcases List.mem_cons.mp hl with rfl | hl
      · simp at hc
      · obtain ⟨hcs, hcn⟩ := ih l hl c hc
        exact ⟨List.mem_cons_of_mem _ hcs, hcn⟩
    · simp only [splitLines, if_neg ha] at hl
      cases hsp : splitLines t with
      | nil =>
        rw [hsp] at hl
        simp at hl
        subst hl
        simp at hc
        subst hc
        exact ⟨List.mem_cons_self _ _, ha⟩
      | cons l0 ls =>
        rw [hsp] at hl
        rcases List.mem_cons.mp hl with rfl | hl
        · rcases List.mem_cons.mp hc with rfl | hc
          · exact ⟨List.mem_cons_self _ _, ha⟩
          · have h0 : l0 ∈ splitLines t := by rw [hsp]; exact List.mem_cons_self _ _
            obtain ⟨hcs, hcn⟩ := ih l0 h0 c hc
            exact ⟨List.mem_cons_of_mem _ hcs, hcn⟩
        · have h0 : l ∈ splitLines t := by rw [hsp]; exact List.mem_cons_of_mem _ hl
          obtain ⟨hcs, hcn⟩ := ih l h0 c hc
          exact ⟨List.mem_cons_of_mem _ hcs, hcn⟩

theorem univNewlines_no_cr : ∀ (s : List Char), '\r' ∉ univNewlines s := by
  intro s
  induction s using univNewlines.induct with
  | case1 => simp [univNewlines]
  | case2 => simp [univNewlines]
  | case3 t' ih => simpa [univNewlines] using ih
  | case4 d t' hd ih => simpa [univNewlines, hd] using ih
  | case5 d t hd ih =>
    cases t with
    | nil => simp [univNewlines, hd, Ne.symm hd]
    | cons d' t'' => simpa [univNewlines, hd, Ne.symm hd] using ih

theorem mem_pySlice (s : List Char) (i j : Nat) :
    ∀ c ∈ pySlice s i j, c ∈ s := by
  intro c hc
  exact ((List.drop_sublist i (s.take j)).trans (List.take_sublist j s)).subset hc

theorem rtrimCRLF_eq_self (l : List Char) (hr : '\r' ∉ l) (hn : '\n' ∉ l) :
    rtrimCRLF l = l := by
  unfold rtrimCRLF
  cases hrev : l.reverse with
  | nil =>
    have : l = [] := by simpa using congrArg List.reverse hrev
    simp [this]
  | cons c t =>
    have hcl : c ∈ l := by
      rw [← List.mem_reverse, hrev]
      exact List.mem_cons_self _ _
    have hpred : (c == '\r' || c == '\n') = false := by
      simp only [Bool.or_eq_false_iff, beq_eq_false_iff_ne]
      exact ⟨fun h => hr (h ▸ hcl), fun h => hn (h ▸ hcl)⟩
    rw [List.dropWhile_cons, hpred]
    simp [← hrev]

/-! ## Claims -/

/-- C1: for every byte sequence of even length `2 * n`, the pixel format
converter produces exactly `n` pixels, one per consecutive big-endian
16-bit sample taken in order (`val = 256 * data[2i] + data[2i+1]`), each
expanded by bit replication; and the exact-value table holds: `0xF800`
gives `(255, 0, 0)`, `0x07E0` gives `(0, 255, 0)`, `0x001F` gives
`(0, 0, 255)`, `0xFFFF` gives `(255, 255, 255)`, `0x0000` gives
`(0, 0, 0)`. -/
theorem c1_even_conversion (data : List Nat) (h : data.length % 2 = 0) :
    convertPixels data = Except.ok ((toPairs data).map pixelOfVal) ∧
    ((toPairs data).map pixelOfVal).length = data.length / 2 ∧
    (∀ i, i < data.length / 2 →
      (toPairs data).getD i 0 = 256 * data.getD (2 * i) 0 + data.getD (2 * i + 1) 0) ∧
    pixelOfVal 0xF800 = (255, 0, 0) ∧
    pixelOfVal 0x07E0 = (0, 255, 0) ∧
    pixelOfVal 0x001F = (0, 0, 255) ∧
    pixelOfVal 0xFFFF = (255, 255, 255) ∧
    pixelOfVal 0x0000 = (0, 0, 0) :=
  ⟨convertPixels_even data h,
   by rw [List.length_map]; exact toPairs_length data,
   toPairs_getD data,
   by decide, by decide, by decide, by decide, by decide⟩

/-- C1 witness: the converter on the concrete 4-byte input
`f8 00 07 e0` yields the two pixels pure red and pure green. -/
theorem c1_witness :
    convertPixels [248, 0, 7, 224] =
      Except.ok ((toPairs [248, 0, 7, 224]).map pixelOfVal) ∧
    convertPixels [248, 0, 7, 224] = Except.ok [(255, 0, 0), (0, 255, 0)] :=
  ⟨(c1_even_conversion [248, 0, 7, 224] rfl).1, rfl⟩

/-- C2 counterexample: on the odd-length byte sequence `[248, 0, 0]` the
conversion loop does not decode the even-length prefix and drop the
trailing byte; `struct.unpack('>H', data[2:4])` receives a 1-byte slice
and raises, so the converter fails instead of returning the prefix pixel
`(255, 0, 0)`. -/
theorem c2_counterexample :
    convertPixels [248, 0, 0] = Except.error () ∧
    convertPixels [248, 0, 0] ≠ Except.ok [(255, 0, 0)] :=
  ⟨rfl, fun h => by
    rw [show convertPixels [248, 0, 0] = Except.error () from rfl] at h
    exact Except.noConfusion h⟩

/-- C2 (amended): for every byte sequence of odd length the conversion
loop raises `struct.error` when unpacking the final 1-byte slice (it does
not silently drop the trailing byte); inside `convert_to_png` this
exception is caught by the generic handler, so the function returns no PNG
regardless of the other collaborators. -/
theorem c2_odd_raises (data : List Nat) (h : data.length % 2 = 1) :
    convertPixels data = Except.error () ∧
    ∀ (pil encodeOk : Bool) (w ht : Nat) (rf pf : String),
      (convert_to_png pil encodeOk data w ht rf pf).2 = none := by
  refine ⟨convertPixels_odd data h, ?_⟩
  intro pil encodeOk w ht rf pf
  cases pil
  · simp [convert_to_png]
  · simp [convert_to_png, convertPixels_odd data h]

/-- C2 witness: the amended statement at the concrete 1-byte input
`[0]`. -/
theorem c2_witness :
    convertPixels [0] = Except.error () ∧
    (convert_to_png true true [0] 240 320 "a.raw" "a.png").2 = none :=
  ⟨(c2_odd_raises [0] rfl).1,
   (c2_odd_raises [0] rfl).2 true true 240 320 "a.raw" "a.png"⟩

/-- C3 counterexample: on a text that is exactly
`startMarker ++ "B" ++ endMarker`, the code's span is
`content[start_idx:end_idx]`, which still contains the start sentinel
itself, while the claim demands the substring strictly between the
sentinels (just `"B"`); the two locators disagree. -/
theorem c3_counterexample :
    locateSpan (startMarker ++ 'B' :: endMarker) ≠
      specLocateSpan (startMarker ++ 'B' :: endMarker) := by
  decide

/-- C3 (amended): the locator returns `content[start_idx:end_idx]` where
`start_idx` is the first occurrence of the start sentinel and `end_idx`
the first occurrence of the end sentinel searched from the beginning of
the whole text (not only after the start sentinel), so the span includes
the start sentinel itself; `MissingMarker` is raised exactly when either
`find` fails; when the end sentinel's first occurrence precedes the start
sentinel's, the slice is empty and the pipeline instead fails later with
`NoPayload`. -/
theorem c3_locator (content : List Char) :
    ((strFind startMarker content = none ∨ strFind endMarker content = none) →
      (extract_screenshot content).2 = Except.error ExtractError.missingMarker) ∧
    (∀ si ei, strFind startMarker content = some si →
      strFind endMarker content = some ei →
      locateSpan content = some (pySlice content si ei) ∧
      (ei ≤ si → (extract_screenshot content).2 = Except.error ExtractError.noPayload)) := by
  constructor
  · rintro (h | h)
    · cases h2 : strFind endMarker content <;> simp [extract_screenshot, h, h2]
    · cases h1 : strFind startMarker content <;> simp [extract_screenshot, h1, h]
  · intro si ei h1 h2
    refine ⟨by simp [locateSpan, h1, h2], ?_⟩
    intro hle
    have hlen : (content.take ei).length ≤ ei := by
      rw [List.length_take]; exact Nat.min_le_left _ _
    have hsec : pySlice content si ei = [] :=
      List.drop_eq_nil_of_le (le_trans hlen hle)
    simp [extract_screenshot, h1, h2, hsec, hexLinesOf, splitLines, isHexLine]

/-- C3 witness: on `endMarker ++ startMarker` both sentinels are found
(start at 36, end at 0), the slice is empty, and extraction fails with
`NoPayload` rather than `MissingMarker`. -/
theorem c3_witness :
    (extract_screenshot (endMarker ++ startMarker)).2 =
      Except.error ExtractError.noPayload :=
  ((c3_locator (endMarker ++ startMarker)).2 36 0 (by decide) (by decide)).2
    (by decide)

/-- C4: a line of the payload span contributes to the hex text iff, after
trimming trailing carriage-return/line-feed characters, it is non-empty
and all its characters are hex digits (spans reached through the pipeline
contain no carriage return, because the log is read in universal-newlines
text mode, so the trimming is vacuous); the retained lines are
concatenated in order with no separator and handed to the hex decoder; if
zero lines are retained the pipeline fails with `NoPayload`. -/
theorem c4_hex_collector :
    (∀ (raw : List Char) (i j : Nat),
      ∀ l ∈ splitLines (pySlice (univNewlines raw) i j),
        (isHexLine l = true ↔
          rtrimCRLF l ≠ [] ∧ ∀ c ∈ rtrimCRLF l, isHexChar c = true)) ∧
    (∀ span : List Char,
      hexLinesOf span = (splitLines span).filter isHexLine) ∧
    (∀ (content : List Char) (si ei : Nat) (bs : List Nat),
      strFind startMarker content = some si →
      strFind endMarker content = some ei →
      hexLinesOf (pySlice content si ei) ≠ [] →
      fromhex ((hexLinesOf (pySlice content si ei)).flatten) = some bs →
      ∃ r, (extract_screenshot content).2 = Except.ok r ∧ r.rawData = bs) ∧
    (∀ (content : List Char) (si ei : Nat),
      strFind startMarker content = some si →
      strFind endMarker content = some ei →
      hexLinesOf (pySlice content si ei) = [] →
      (extract_screenshot content).2 = Except.error ExtractError.noPayload) := by
  refine ⟨?_, fun _ => rfl, ?_, ?_⟩
  · intro raw i j l hl
    have hchars := splitLines_chars _ l hl
    have hr : '\r' ∉ l := fun hc =>
      univNewlines_no_cr raw (mem_pySlice _ i j _ ((hchars '\r' hc).1))
    have hn : '\n' ∉ l := fun hc => (hchars '\n' hc).2 rfl
    rw [rtrimCRLF_eq_self l hr hn]
    simp [isHexLine, List.all_eq_true, List.isEmpty_iff]
  · intro content si ei bs h1 h2 hne hfh
    have hemp : (hexLinesOf (pySlice content si ei)).isEmpty = false := by
      simpa [List.isEmpty_iff] using hne
    refine ⟨⟨bs, (extractMeta (pySlice content si ei)).width,
             (extractMeta (pySlice content si ei)).height,
             (extractMeta (pySlice content si ei)).format⟩, ?_, rfl⟩
    simp [extract_screenshot, h1, h2, hemp, hfh]
  · intro content si ei h1 h2 h3
    simp [extract_screenshot, h1, h2, h3]

/-- C4 witness: the retention condition at the concrete line `f800`, and
`NoPayload` on a concrete capture whose span has no hex-only line. -/
theorem c4_witness :
    (isHexLine ("f800".data) = true ↔
      rtrimCRLF ("f800".data) ≠ [] ∧
        ∀ c ∈ rtrimCRLF ("f800".data), isHexChar c = true) ∧
    (extract_screenshot (startMarker ++ ("\nzz qq\n").data ++ endMarker)).2 =
      Except.error ExtractError.noPayload :=
  ⟨c4_hex_collector.1 ("f800".data) 0 4 ("f800".data) (by decide),
   c4_hex_collector.2.2.2 (startMarker ++ ("\nzz qq\n").data ++ endMarker)
     0 45 (by decide) (by decide) (by decide)⟩

/-- A concrete capture: both sentinels around one red-pixel hex line. -/
def c5content : List Char := startMarker ++ ("\nf800\n").data ++ endMarker

/-- C5 evidence: with PIL unavailable the run still exits 0, the raw file
is written (non-empty: two bytes) and kept, and the printed recipes carry
the correct `240x320` size — but the recipe printed by `main` says
`-endian LSB` (little-endian, 16-bit-per-channel `rgb:`), and no printed
message describes the layout as big-endian, although the raw bytes are
big-endian RGB565 (the converter itself and the source comment at
line 108 treat them as such).  The `RGB565` name appears only in the
PIL-missing message, with `-depth 5` and no endianness. -/
theorem c5_recipe_bug :
    (main c5content false true "20240101_000000").exitCode = 0 ∧
    (main c5content false true "20240101_000000").rawWritten = true ∧
    (main c5content false true "20240101_000000").rawDeleted = false ∧
    (main c5content false true "20240101_000000").pngWritten = false ∧
    (extract_screenshot c5content).2 = Except.ok ⟨[248, 0], 240, 320, none⟩ ∧
    mainFallbackRecipe 240 320 "screenshot_20240101_000000.raw" "20240101_000000" ∈
      (main c5content false true "20240101_000000").printed ∧
    containsSub ("240x320".data)
      ((mainFallbackRecipe 240 320 "screenshot_20240101_000000.raw"
        "20240101_000000").data) = true ∧
    containsSub ("-endian LSB".data)
      ((mainFallbackRecipe 240 320 "screenshot_20240101_000000.raw"
        "20240101_000000").data) = true ∧
    ((main c5content false true "20240101_000000").printed.all
      (fun m => !containsSub ("big".data) m.data)) = true ∧
    containsSub ("RGB565".data)
      ((pilMissingMsg 240 320 "screenshot_20240101_000000.raw"
        "screenshot_20240101_000000.png").data) = true := by
  decide

theorem extract_writes (content : List Char) :
    (extract_screenshot content).1 = [] ∨
    ∃ r, (extract_screenshot content).2 = Except.ok r := by
  unfold extract_screenshot
  cases strFind startMarker content <;> cases strFind endMarker content <;> simp
  split
  · simp
  · split
    · simp
    · simp

/-- C6: whenever extraction fails with one of the three fatal errors, no
file write has been performed and `main` exits with status 1 having
created neither the raw file nor a PNG. -/
theorem c6_fatal_errors_no_output (content : List Char) (pil encodeOk : Bool)
    (ts : String) (e : ExtractError)
    (h : (extract_screenshot content).2 = Except.error e) :
    (extract_screenshot content).1 = [] ∧
    main content pil encodeOk ts = ⟨1, false, false, false, []⟩ := by
  constructor
  · rcases extract_writes content with hw | ⟨r, hr⟩
    · exact hw
    · rw [h] at hr
      exact Except.noConfusion hr
  · cases hx : extract_screenshot content with
    | mk ws res =>
      rw [hx] at h
      cases res with
      | error e2 => simp [main, hx]
      | ok r => simp at h

/-- C6 witness: a log without sentinels produces `MissingMarker`, no
writes, and exit status 1. -/
theorem c6_witness :
    (extract_screenshot ("hello".data)).1 = [] ∧
    main ("hello".data) true true "t" = ⟨1, false, false, false, []⟩ :=
  c6_fatal_errors_no_output ("hello".data) true true "t"
    ExtractError.missingMarker (by decide)

/-- C7: the three metadata tokens are looked up independently (each field
is a function of its own token search alone); an absent or unparsable
`WIDTH:` token gives width 240 and an absent or unparsable `HEIGHT:`
token gives height 320 (a key not followed by a digit never matches the
search, so it falls under absence). -/
theorem c7_metadata_defaults (span : List Char) :
    (searchKeyNum widthKey span = none → (extractMeta span).width = 240) ∧
    (searchKeyNum heightKey span = none → (extractMeta span).height = 320) ∧
    (extractMeta span).width = (searchKeyNum widthKey span).getD 240 ∧
    (extractMeta span).height = (searchKeyNum heightKey span).getD 320 ∧
    (extractMeta span).format = searchKeyWord formatKey span := by
  refine ⟨fun h => ?_, fun h => ?_, rfl, rfl, rfl⟩ <;> simp [extractMeta, h]

/-- C7 witness: a span with no tokens gets the defaults 240 and 320. -/
theorem c7_witness :
    (extractMeta ("no tokens here".data)).width = 240 ∧
    (extractMeta ("no tokens here".data)).height = 320 :=
  ⟨(c7_metadata_defaults ("no tokens here".data)).1 (by decide),
   (c7_metadata_defaults ("no tokens here".data)).2.1 (by decide)⟩

/-- C8 counterexample: the span `WIDTH:0` produces a FrameMetadata whose
width is 0, so the claimed invariant `width > 0` fails. -/
theorem c8_counterexample :
    (extractMeta ("WIDTH:0".data)).width = 0 ∧
    ¬ 0 < (extractMeta ("WIDTH:0".data)).width := by
  decide

/-- C8 (amended): the width and height fields are natural numbers; they
are strictly positive exactly when the corresponding token search does not
yield the value 0 — the defaults 240 and 320 are positive, but a token
such as `WIDTH:0` is accepted verbatim. -/
theorem c8_positive_iff (span : List Char) :
    (0 < (extractMeta span).width ↔ searchKeyNum widthKey span ≠ some 0) ∧
    (0 < (extractMeta span).height ↔ searchKeyNum heightKey span ≠ some 0) := by
  constructor
  · cases h : searchKeyNum widthKey span <;>
      simp [extractMeta, h, Nat.pos_iff_ne_zero]
  · cases h : searchKeyNum heightKey span <;>
      simp [extractMeta, h, Nat.pos_iff_ne_zero]

/-- C8 witness: the amended statement evaluated at the span `WIDTH:7`. -/
theorem c8_witness :
    0 < (extractMeta ("WIDTH:7".data)).width ↔
      searchKeyNum widthKey ("WIDTH:7".data) ≠ some 0 :=
  (c8_positive_iff ("WIDTH:7".data)).1

/-- A concrete capture whose hex payload decodes to an odd number of
bytes. -/
def c9content : List Char := startMarker ++ ("\naabbcc\n").data ++ endMarker

/-- C9 counterexample: the decoder accepts the six-digit hex string
`aabbcc` and produces three bytes — an odd length — so decoded byte
sequences are not always of even length and the converter can be reached
with an odd trailing byte. -/
theorem c9_counterexample :
    fromhex ("aabbcc".data) = some [170, 187, 204] ∧
    ¬ Even ([170, 187, 204] : List Nat).length :=
  ⟨rfl, by decide⟩

/-- C9 (amended): the decoder rejects odd hex-digit counts, and every
accepted hex string decodes to exactly half as many bytes as it has hex
digits — which need not be an even number of bytes; inside the pipeline a
capture whose payload is `aabbcc` reaches the converter with three
bytes. -/
theorem c9_decoded_length :
    (∀ (cs : List Char) (bs : List Nat), fromhex cs = some bs →
      2 * bs.length = (cs.filter (fun c => (hexVal c).isSome)).length) ∧
    (extract_screenshot c9content).2 =
      Except.ok ⟨[170, 187, 204], 240, 320, none⟩ :=
  ⟨fromhex_len, by decide⟩

/-- C9 witness: the amended length law at the concrete string `aabbcc`. -/
theorem c9_witness :
    2 * ([170, 187, 204] : List Nat).length =
      (("aabbcc".data).filter (fun c => (hexVal c).isSome)).length :=
  c9_decoded_length.1 ("aabbcc".data) [170, 187, 204] rfl

/-- C10: every failure inside `convert_to_png` — missing PIL, the
`struct.error` raised on an odd byte count, or an encoder failure — makes
it return no PNG, and `main` then follows the degraded path: exit status
0, raw file written and not deleted, no PNG, and the fallback recipe
printed. -/
theorem c10_conversion_errors_degrade (content : List Char)
    (pil encodeOk : Bool) (ts : String) (r : ExtractOk)
    (hok : (extract_screenshot content).2 = Except.ok r) :
    ((pil = false ∨ encodeOk = false ∨ r.rawData.length % 2 = 1) →
      (convert_to_png pil encodeOk r.rawData r.width r.height
        ("screenshot_" ++ ts ++ ".raw") ("screenshot_" ++ ts ++ ".png")).2 = none) ∧
    (∀ msgs, convert_to_png pil encodeOk r.rawData r.width r.height
        ("screenshot_" ++ ts ++ ".raw") ("screenshot_" ++ ts ++ ".png") = (msgs, none) →
      main content pil encodeOk ts =
        ⟨0, true, false, false,
          msgs ++ ["\n✓ Raw data saved as: " ++ ("screenshot_" ++ ts ++ ".raw"),
                   "  You can manually convert with:",
                   mainFallbackRecipe r.width r.height
                     ("screenshot_" ++ ts ++ ".raw") ts]⟩) := by
  constructor
  · rintro (rfl | rfl | hodd)
    · simp [convert_to_png]
    · cases pil
      · simp [convert_to_png]
      · simp only [convert_to_png, if_pos rfl]
        cases convertPixels r.rawData <;> simp
    · cases pil
      · simp [convert_to_png]
      · simp [convert_to_png, convertPixels_odd _ hodd]
  · intro msgs hconv
    cases hx : extract_screenshot content with
    | mk ws res =>
      rw [hx] at hok
      cases res with
      | error e => simp at hok
      | ok r' =>
        have hr : r' = r := by simpa using hok
        subst hr
        simp [main, hx, hconv]

/-- A concrete capture with one green-pixel hex line. -/
def c10content : List Char := startMarker ++ ("\n07e0\n").data ++ endMarker

/-- C10 witness: with PIL unavailable on a valid capture, `main` ends in
the degraded success outcome with the raw file kept and the recipes
printed. -/
theorem c10_witness :
    main c10content false true "t" =
      ⟨0, true, false, false,
        ["Error: PIL/Pillow not found", "Install with: pip install pillow",
         "Or use ImageMagick manually:",
         pilMissingMsg 240 320 ("screenshot_" ++ "t" ++ ".raw")
           ("screenshot_" ++ "t" ++ ".png")] ++
        ["\n✓ Raw data saved as: " ++ ("screenshot_" ++ "t" ++ ".raw"),
         "  You can manually convert with:",
         mainFallbackRecipe 240 320 ("screenshot_" ++ "t" ++ ".raw") "t"]⟩ :=
  (c10_conversion_errors_degrade c10content false true "t"
    ⟨[7, 224], 240, 320, none⟩ (by decide)).2 _ rfl

end Screenshot
